import Mathlib

/-!
Shallow embedding of the ChainFudAgent bot core (src/src/core/runtime.rs,
src/src/memory.rs, src/src/models.rs, src/src/providers/solanatracker.rs)
and proofs about its scheduling, deduplication and persistence behaviour.

Conventions of the embedding:
* wall-clock instants (chrono DateTime) are modelled as seconds since an
  arbitrary origin, a Nat;
* Rust u64 counters are modelled as Nat (none of the verified properties
  reaches the overflow boundary);
* std HashSet of String is modelled as a duplicate-free list holding the
  set's iteration order;
* fallible external calls (HTTP, LLM) are oracles of type Except String,
  randomness draws are oracle fields of the environment records;
* a Rust panic is a distinguished outcome constructor, separate from an
  Err return.
-/

namespace ChainFud

/-- Sliding windows of width three over a list, mirroring the slice
method windows(3) used in runtime.rs. -/
def windows3 {α : Type} : List α → List (List α)
  | a :: b :: c :: rest => [a, b, c] :: windows3 (b :: c :: rest)
  | _ => []

/-- Accumulator pass of split_whitespace over the character list:
cur holds the reversed current word. -/
def words_aux : List Char → List Char → List (List Char)
  | [], cur => if cur.isEmpty then [] else [cur.reverse]
  | c :: cs, cur =>
    if c.isWhitespace then
      if cur.isEmpty then words_aux cs []
      else cur.reverse :: words_aux cs []
    else words_aux cs (c :: cur)

/-- Rust str::split_whitespace: the maximal nonempty runs of
non-whitespace characters, in order. -/
def split_whitespace (text : String) : List (List Char) :=
  words_aux text.toList []

/-- Rust str::to_lowercase restricted to the character-wise mapping. -/
def lower_chars (cs : List Char) : List Char := cs.map Char.toLower

/-- Lowercased 3-consecutive-word phrases of a text, as built in
runtime.rs (windows(3), join with a single space, to_lowercase). -/
def phrases3 (text : String) : List String :=
  (windows3 (split_whitespace text)).map
    (fun w => String.mk (lower_chars (List.intercalate [' '] w)))

/-- HashSet insert on the iteration-order list model: appending a member
that is not yet present. -/
def hs_insert (s : List String) (x : String) : List String :=
  if s.contains x then s else s ++ [x]

/-- Size-limit maintenance from runtime.rs: when the set holds more than
maxN members, collect the first (len - maxN) members of the iteration
order and remove each of them, i.e. keep exactly the members that were
not collected. -/
def evict_over_capacity (s : List String) (maxN : Nat) : List String :=
  if s.length > maxN then
    s.filter (fun p => !((s.take (s.length - maxN)).contains p))
  else s

/-- State of the recency tracker: the recent_phrases set and
max_recent_phrases capacity fields of the Runtime struct. -/
structure TrackerState where
  recent_phrases : List String
  max_recent_phrases : Nat
deriving Repr, DecidableEq

/-- contains_recent_phrase (runtime.rs lines 104-132), the tracker's
check-and-record operation: if any 3-word phrase of the text is already
present, return true at once; otherwise insert every phrase of the text,
evict down to capacity, and return false. -/
def contains_recent_phrase (st : TrackerState) (text : String) : Bool × TrackerState :=
  if (phrases3 text).any (fun p => st.recent_phrases.contains p) then
    (true, st)
  else
    (false, { st with recent_phrases :=
        (evict_over_capacity ((phrases3 text).foldl hs_insert st.recent_phrases)
          st.max_recent_phrases) })

/-- Phrase-window update inlined in generate_and_post_fud
(runtime.rs lines 646-662): insert every 3-word phrase of the accepted
draft, then evict down to capacity. -/
def update_recent_phrases (recent : List String) (maxN : Nat) (text : String) : List String :=
  evict_over_capacity ((phrases3 text).foldl hs_insert recent) maxN

/-- TweetType from models.rs. -/
inductive TweetType where
  | Original
  | Reply
deriving Repr, DecidableEq

/-- Tweet record from models.rs. -/
structure Tweet where
  internal_id : Nat
  twitter_id : Option String
  text : String
  prompt : String
  timestamp : Nat
  tweet_type : TweetType
  reply_to : Option String
deriving Repr, DecidableEq

/-- Memory record from models.rs: the persisted bot memory. -/
structure Memory where
  tweets : List Tweet
  next_id : Nat
  next_tweet : Option Nat
  debug_mode : Bool
  tweet_mode : Bool
deriving Repr, DecidableEq

/-- Memory::default via the Default derive: empty posts, zero counter,
no schedule, both mode flags false. -/
def Memory.default : Memory :=
  { tweets := [], next_id := 0, next_tweet := none, debug_mode := false, tweet_mode := false }

/-- MemoryStore::add_to_memory (memory.rs lines 25-41): append an
Original record carrying internal_id = next_id, then increment next_id. -/
def add_to_memory (memory : Memory) (text prompt : String) (twitter_id : Option String)
    (now : Nat) : Memory :=
  let tweet : Tweet :=
    { internal_id := memory.next_id, twitter_id := twitter_id, text := text,
      prompt := prompt, timestamp := now, tweet_type := TweetType.Original, reply_to := none }
  { memory with tweets := memory.tweets ++ [tweet], next_id := memory.next_id + 1 }

/-- MemoryStore::add_reply_to_memory (memory.rs lines 44-66): append a
Reply record carrying internal_id = next_id, then increment next_id. -/
def add_reply_to_memory (memory : Memory) (text prompt : String) (twitter_id : Option String)
    (reply_to : String) (now : Nat) : Memory :=
  let tweet : Tweet :=
    { internal_id := memory.next_id, twitter_id := twitter_id, text := text,
      prompt := prompt, timestamp := now, tweet_type := TweetType.Reply,
      reply_to := some reply_to }
  { memory with tweets := memory.tweets ++ [tweet], next_id := memory.next_id + 1 }

/-- MemoryStore::save_memory (memory.rs lines 80-86) serializes the full
Memory record to the storage file; the file is modelled as the record it
holds (serde JSON round-trips every field). -/
def save_memory (memory : Memory) : Option Memory := some memory

/-- MemoryStore::load_memory (memory.rs lines 14-22): read the stored
record when the file exists, else Memory::default. -/
def load_memory (file : Option Memory) : Memory := file.getD Memory.default

/-- One add operation against the memory store: either an original post
or a reply, with the payload of the corresponding Rust call. -/
inductive AddOp where
  | original (text prompt : String) (twitter_id : Option String) (now : Nat)
  | reply (text prompt : String) (twitter_id : Option String) (reply_to : String) (now : Nat)
deriving Repr

/-- Dispatch one AddOp to the matching MemoryStore operation. -/
def apply_add (memory : Memory) : AddOp → Memory
  | AddOp.original text prompt tid now => add_to_memory memory text prompt tid now
  | AddOp.reply text prompt tid rt now => add_reply_to_memory memory text prompt tid rt now

/-- Memory built by a sequence of add operations starting from the
default (fresh) memory. -/
def build_memory (ops : List AddOp) : Memory := ops.foldl apply_add Memory.default

/-- Highest internal_id present in a posts list (0 for an empty list). -/
def max_internal_id (tweets : List Tweet) : Nat :=
  tweets.foldl (fun acc t => max acc t.internal_id) 0

/-- should_run_scheduled_action (runtime.rs lines 172-184): true iff the
current minute is one of the configured marks and the current second is
exactly zero. -/
def should_run_scheduled_action (minutes : List Nat) (minute second : Nat) : Bool :=
  minutes.contains minute && (second == 0)

/-- chrono signed_duration_since followed by num_minutes: whole minutes
of the signed difference, truncated toward zero. -/
def num_minutes (later earlier : Nat) : Int :=
  ((later : Int) - (earlier : Int)).tdiv 60

/-- should_allow_tweet (runtime.rs lines 160-169): a post is allowed if
no post happened yet or at least five minutes elapsed since the last one. -/
def should_allow_tweet (last_tweet_time : Option Nat) (now : Nat) : Bool :=
  match last_tweet_time with
  | none => true
  | some last => decide (num_minutes now last ≥ 5)

/-- should_check_notifications (runtime.rs lines 280-288): same 5-minute
gate on the last notification check. -/
def should_check_notifications (last_notification_check : Option Nat) (now : Nat) : Bool :=
  match last_notification_check with
  | none => true
  | some last => decide (num_minutes now last ≥ 5)

/-- TokenInfo from solanatracker.rs (the fields the core reads). -/
structure TokenInfo where
  name : String
  symbol : String
  mint : String
deriving Repr, DecidableEq

/-- Pool record from solanatracker.rs. The f64 monetary fields are
modelled as integers: no verified property depends on float arithmetic,
only on which pool fields are read and on the empty-pools panic. -/
structure Pool where
  price_usd : Int
  liquidity_usd : Int
deriving Repr, DecidableEq

/-- TokenResponse from solanatracker.rs: token info plus its pools
vector (serde default: possibly empty). -/
structure TokenResponse where
  token : TokenInfo
  pools : List Pool
deriving Repr, DecidableEq

/-- Price::calculate_market_cap (solanatracker.rs lines 157-160):
the usd price scaled by 1e9. -/
def calculate_market_cap (price_usd : Int) : Int := price_usd * 1000000000

/-- Pool::get_liquidity_usd (solanatracker.rs lines 164-167). -/
def get_liquidity_usd (pool : Pool) : Int := pool.liquidity_usd

/-- One-decimal rendering of amount/divisor for the integer model of the
Rust one-decimal float format used by format_currency. -/
def fmt_one_decimal (amount divisor : Int) : String :=
  let scaled := amount * 10 / divisor
  toString (scaled / 10) ++ "." ++ toString (scaled % 10)

/-- SolanaTracker::format_currency (solanatracker.rs lines 431-439):
billions, millions, or thousands with one decimal. -/
def format_currency (amount : Int) : String :=
  if amount ≥ 1000000000 then "$" ++ fmt_one_decimal amount 1000000000 ++ "B"
  else if amount ≥ 1000000 then "$" ++ fmt_one_decimal amount 1000000 ++ "M"
  else "$" ++ fmt_one_decimal amount 1000 ++ "K"

/-- format_token_summary (solanatracker.rs lines 441-457). The Rust body
starts with token.pools.first().unwrap(): an empty pools vector makes the
call panic, modelled as none. The three rand-simulated local variables of
the Rust body are never used in the produced string and are omitted. -/
def format_token_summary (token : TokenResponse) : Option String :=
  match token.pools with
  | [] => none
  | pool :: _ =>
    some ("Token: $" ++ token.token.symbol ++ "\n" ++
      "Market Cap: " ++ format_currency (calculate_market_cap pool.price_usd) ++ "\n" ++
      "Liquidity: " ++ format_currency (get_liquidity_usd pool) ++ "\n")

/-- Helper of the substring test: the first list starts with the second. -/
def chars_start_with : List Char → List Char → Bool
  | _, [] => true
  | [], _ :: _ => false
  | c :: cs, d :: ds => c == d && chars_start_with cs ds

/-- Substring occurrence over character lists: some suffix of the
haystack starts with the needle. -/
def chars_contain : List Char → List Char → Bool
  | [], needle => needle.isEmpty
  | c :: cs, needle => chars_start_with (c :: cs) needle || chars_contain cs needle

/-- Model of the Rust rate-limit detection e.to_string().contains with
the fixed pattern 429. -/
def contains_429 (msg : String) : Bool :=
  chars_contain msg.toList ("429".toList)

/-- Mutable fields of the Runtime struct that the verified cycles read
or write (runtime.rs lines 22-36). -/
structure RuntimeState where
  memory : Memory
  processed_tweets : List String
  cached_user_id : Option Nat
  last_notification_check : Option Nat
  last_tweet_time : Option Nat
  recent_phrases : List String
  max_recent_phrases : Nat
deriving Repr, DecidableEq

/-- Outcome of one cycle: an Ok return, an Err return, or a panic. -/
inductive RunResult where
  | ok
  | err (msg : String)
  | panicked (msg : String)
deriving Repr, DecidableEq

/-- Externally observable side effects of one cycle: the external
content submissions attempted (tweet, tweet-with-image, reply), and the
total seconds slept. -/
structure Effects where
  submissions : List String
  sleep_secs : Nat
deriving Repr, DecidableEq

/-- No side effects. -/
def no_effects : Effects := { submissions := [], sleep_secs := 0 }

/-- ensure_user_id (runtime.rs lines 266-278): return the cached id, or
fetch it (an oracle that may fail) and cache it. -/
def ensure_user_id (st : RuntimeState) (user_id_result : Except String Nat) :
    Except String (Nat × RuntimeState) :=
  match st.cached_user_id with
  | some id => Except.ok (id, st)
  | none =>
    match user_id_result with
    | Except.ok id => Except.ok (id, { st with cached_user_id := some id })
    | Except.error e => Except.error e

/-- Oracles consumed by one execution of run (runtime.rs lines 186-264). -/
structure RunEnv where
  now : Nat
  coin_normal_post : Bool
  generated_post : Except String String
  top_tokens : Except String (List TokenResponse)
  token_choice : Nat
  fud_text : TokenResponse → String
  tweet_result : Except String Nat
  agent_prompt : String

/-- Content selection of run (runtime.rs lines 201-213): a coin flip
between the agent's generic post and token FUD. gen_range on an empty
0..0 range panics before tokens.get can return None; for a nonempty list
the drawn index token_choice mod len is always in bounds, so the
ok_or_else branch for a missing element is unreachable. -/
def run_content (env : RunEnv) : RunResult ⊕ String :=
  if env.coin_normal_post then
    match env.generated_post with
    | Except.ok s => Sum.inr s
    | Except.error e => Sum.inl (RunResult.err ("Failed to generate post: " ++ e))
  else
    match env.top_tokens with
    | Except.error e => Sum.inl (RunResult.err e)
    | Except.ok tokens =>
      if tokens.length = 0 then Sum.inl (RunResult.panicked ("cannot sample empty range"))
      else
        match tokens.get? (env.token_choice % tokens.length) with
        | some t => Sum.inr (env.fud_text t)
        | none => Sum.inl (RunResult.err ("No tokens available"))

/-- run (runtime.rs lines 186-264), the simple post cycle: agent guard,
cooldown gate, content selection, then either an external tweet (with
429 detection) or a memory-only record depending on tweet_mode. -/
def run_cycle (st : RuntimeState) (env : RunEnv) (agents_len : Nat) :
    RunResult × RuntimeState × Effects :=
  if agents_len = 0 then (RunResult.err ("No agents available"), st, no_effects)
  else if should_allow_tweet st.last_tweet_time env.now = false then
    (RunResult.ok, st, no_effects)
  else
    match run_content env with
    | Sum.inl r => (r, st, no_effects)
    | Sum.inr tweet_content =>
      if st.memory.tweet_mode then
        match env.tweet_result with
        | Except.ok tweet_id =>
          let st1 :=
            { st with
              last_tweet_time := some env.now,
              memory := add_to_memory st.memory tweet_content env.agent_prompt
                (some (toString tweet_id)) env.now }
          (RunResult.ok, st1, { submissions := [tweet_content], sleep_secs := 0 })
        | Except.error e =>
          if contains_429 e then
            (RunResult.ok, st, { submissions := [tweet_content], sleep_secs := 15 * 60 })
          else
            (RunResult.err e, st, { submissions := [tweet_content], sleep_secs := 0 })
      else
        (RunResult.ok,
          { st with memory := add_to_memory st.memory tweet_content env.agent_prompt none env.now },
          no_effects)

/-- Oracles consumed by one execution of generate_and_post_fud
(runtime.rs lines 573-672). drafts gives the successful result of the
n-th generate_editorialized_fud call of the cycle. -/
structure FudEnv where
  now : Nat
  top_tokens : Except String (List TokenResponse)
  token_choice : Nat
  drafts : Nat → String
  with_image : Bool
  image_ok : Bool
  upload_result : Except String Nat
  tweet_with_image_result : Except String Unit
  tweet_result : Except String Unit
  user_id_result : Except String Nat

/-- Retry loop of generate_and_post_fud (runtime.rs lines 588-607 and
664-668): regenerate while the draft shares a 3-word phrase with
recent_phrases and attempts has not reached MAX_ATTEMPTS = 3; the draft
of the final attempt is accepted unconditionally. Returns the accepted
draft and the value of the attempts counter at acceptance. Fuel 4 covers
the loop's worst case (attempts 0, 1, 2, 3). -/
def fud_attempt_loop (recent : List String) (drafts : Nat → String) :
    Nat → Nat → String × Nat
  | 0, attempts => (drafts attempts, attempts)
  | fuel + 1, attempts =>
    if !((phrases3 (drafts attempts)).any (fun p => recent.contains p))
        || decide (attempts ≥ 3) then
      (drafts attempts, attempts)
    else fud_attempt_loop recent drafts fuel (attempts + 1)

/-- Posting step of generate_and_post_fud once tweet_mode is known to be
on (runtime.rs lines 610-644): a 30 percent image branch (gated by the
image chain's success) or a plain tweet; every submission failure is
merely logged; a success stamps last_tweet_time. Returns the updated
state and the submission effects. -/
def fud_post_step (st1 : RuntimeState) (env : FudEnv) (fud : String) :
    RuntimeState × Effects :=
  if env.with_image then
    if env.image_ok then
      match env.upload_result with
      | Except.ok _media_id =>
        match env.tweet_with_image_result with
        | Except.ok _ =>
          ({ st1 with last_tweet_time := some env.now },
            { submissions := [fud], sleep_secs := 0 })
        | Except.error _ => (st1, { submissions := [fud], sleep_secs := 0 })
      | Except.error _ => (st1, no_effects)
    else (st1, no_effects)
  else
    match env.tweet_result with
    | Except.ok _ =>
      ({ st1 with last_tweet_time := some env.now },
        { submissions := [fud], sleep_secs := 0 })
    | Except.error _ => (st1, { submissions := [fud], sleep_secs := 0 })

/-- generate_and_post_fud (runtime.rs lines 573-672): cooldown gate,
token fetch, random token draw (gen_range panics on an empty list),
token summary (panics on an empty pools vector), dedup retry loop, then,
only when tweet_mode is on: user-id fetch, the posting step, and the
phrase-window update on the accepted draft. The function never appends
to the bot memory. -/
def generate_and_post_fud (st : RuntimeState) (env : FudEnv) :
    RunResult × RuntimeState × Effects :=
  if should_allow_tweet st.last_tweet_time env.now = false then (RunResult.ok, st, no_effects)
  else
    match env.top_tokens with
    | Except.error e => (RunResult.err e, st, no_effects)
    | Except.ok tokens =>
      if tokens.length = 0 then
        (RunResult.panicked ("cannot sample empty range"), st, no_effects)
      else
        match tokens.get? (env.token_choice % tokens.length) with
        | none => (RunResult.ok, st, no_effects)
        | some random_token =>
          match format_token_summary random_token with
          | none => (RunResult.panicked ("called Option unwrap on a None value"), st, no_effects)
          | some _token_summary =>
            if st.memory.tweet_mode then
              match ensure_user_id st env.user_id_result with
              | Except.error e => (RunResult.err e, st, no_effects)
              | Except.ok (_user_id, st1) =>
                (RunResult.ok,
                  { (fud_post_step st1 env
                      (fud_attempt_loop st.recent_phrases env.drafts 4 0).1).1 with
                    recent_phrases := (update_recent_phrases
                      (fud_post_step st1 env
                        (fud_attempt_loop st.recent_phrases env.drafts 4 0).1).1.recent_phrases
                      (fud_post_step st1 env
                        (fud_attempt_loop st.recent_phrases env.drafts 4 0).1).1.max_recent_phrases
                      (fud_attempt_loop st.recent_phrases env.drafts 4 0).1) },
                  (fud_post_step st1 env
                    (fud_attempt_loop st.recent_phrases env.drafts 4 0).1).2)
            else
              (RunResult.ok, st, no_effects)

/-- Inbound notification as the core reads it: numeric id and text. -/
structure Notification where
  id : Nat
  text : String
deriving Repr, DecidableEq

/-- Oracles consumed by one execution of handle_notifications_fud
(runtime.rs lines 674-838). respond collapses the per-notification reply
generation (lines 720-791: token-info shortcut, ticker or address
lookup, agent calls) into the produced text or the propagated error;
shuffle is the rng permutation applied before truncation. -/
structure NotifEnv where
  now : Nat
  notifications : Except String (List Notification)
  shuffle : List Notification → List Notification
  respond : Notification → Except String String
  reply_result : Notification → Except String Unit
  user_id_result : Except String Nat

/-- Membership test of the unresponded filter (runtime.rs lines
691-698): a notification is answered when some memory record's reply_to
equals its id. -/
def answered_in_memory (memory : Memory) (tweet_id : Nat) : Bool :=
  memory.tweets.any (fun t =>
    match t.reply_to with
    | some reply_id => reply_id == toString tweet_id
    | none => false)

/-- Batch selection of handle_notifications_fud (runtime.rs lines
691-711): keep the unanswered notifications; when more than 2 remain,
shuffle and truncate to 3. -/
def select_to_process (env : NotifEnv) (memory : Memory) (notifications : List Notification) :
    List Notification :=
  if (notifications.filter (fun tweet => !(answered_in_memory memory tweet.id))).length > 2 then
    (env.shuffle (notifications.filter
      (fun tweet => !(answered_in_memory memory tweet.id)))).take 3
  else notifications.filter (fun tweet => !(answered_in_memory memory tweet.id))

/-- Unconditional reply recording of the notification loop (runtime.rs
lines 795-803): add_reply_to_memory on the runtime's memory, keyed by
the notification's id. -/
def record_reply (st : RuntimeState) (fud_response prompt : String) (tweet_id now : Nat) :
    RuntimeState :=
  { st with memory := (add_reply_to_memory st.memory fud_response prompt
      (some (toString tweet_id)) (toString tweet_id) now) }

/-- Per-notification loop of handle_notifications_fud (runtime.rs lines
715-823): generate the reply (a generation error propagates out of the
whole pass), record it in memory unconditionally, and, when tweet_mode
is on, submit it externally, sleeping 30 s after a success and aborting
the rest of the batch on a 429 failure. -/
def notif_loop (env : NotifEnv) (prompt : String) :
    List Notification → RuntimeState → Effects → RunResult × RuntimeState × Effects
  | [], st, eff => (RunResult.ok, st, eff)
  | tweet :: rest, st, eff =>
    match env.respond tweet with
    | Except.error e => (RunResult.err e, st, eff)
    | Except.ok fud_response =>
      if (record_reply st fud_response prompt tweet.id env.now).memory.tweet_mode then
        match env.reply_result tweet with
        | Except.ok _ =>
          notif_loop env prompt rest (record_reply st fud_response prompt tweet.id env.now)
            ⟨eff.submissions ++ [fud_response], eff.sleep_secs + 30⟩
        | Except.error e =>
          if contains_429 e then
            (RunResult.ok, record_reply st fud_response prompt tweet.id env.now,
              ⟨eff.submissions ++ [fud_response], eff.sleep_secs⟩)
          else
            notif_loop env prompt rest (record_reply st fud_response prompt tweet.id env.now)
              ⟨eff.submissions ++ [fud_response], eff.sleep_secs⟩
      else
        notif_loop env prompt rest (record_reply st fud_response prompt tweet.id env.now) eff

/-- handle_notifications_fud (runtime.rs lines 674-838): agent guard,
5-minute gate, user-id fetch, notification fetch (429 treated as a
non-fatal skip), batch selection, then the per-notification loop. -/
def handle_notifications_fud (st : RuntimeState) (env : NotifEnv) (agents_len : Nat)
    (prompt : String) : RunResult × RuntimeState × Effects :=
  if agents_len = 0 then (RunResult.err ("No agents available"), st, no_effects)
  else if should_check_notifications st.last_notification_check env.now = false then
    (RunResult.ok, st, no_effects)
  else
    match ensure_user_id st env.user_id_result with
    | Except.error e => (RunResult.err e, st, no_effects)
    | Except.ok (_uid, st0) =>
      match env.notifications with
      | Except.error e =>
        if contains_429 e then
          (RunResult.ok, { st0 with last_notification_check := some env.now }, no_effects)
        else (RunResult.err e, st0, no_effects)
      | Except.ok notifications =>
        let st1 := { st0 with last_notification_check := some env.now }
        notif_loop env prompt (select_to_process env st1.memory notifications) st1 no_effects

/-- One phrase-window mutation: a check_and_record call of the tracker
(contains_recent_phrase) or the accepted-draft update inlined in the FUD
post cycle. -/
inductive TrackerOp where
  | check (text : String)
  | post_update (text : String)

/-- Apply one TrackerOp to the tracker state. -/
def tracker_step (st : TrackerState) : TrackerOp → TrackerState
  | TrackerOp.check text => (contains_recent_phrase st text).2
  | TrackerOp.post_update text =>
    { st with recent_phrases :=
        update_recent_phrases st.recent_phrases st.max_recent_phrases text }

/-- Tracker start state of the Runtime constructor (runtime.rs lines
72-73): empty set, capacity 50. -/
def tracker_init : TrackerState := { recent_phrases := [], max_recent_phrases := 50 }

/-- Concrete token with one pool, used to instantiate theorems. -/
def sample_token : TokenResponse :=
  { token := { name := "Sample", symbol := "SMPL", mint := "So11111111111111111111111111111111111111112" },
    pools := [{ price_usd := 2, liquidity_usd := 50000 }] }

/-- Concrete token whose pools vector is empty (the analytics API serde
default when the field is missing). -/
def poolless_token : TokenResponse :=
  { token := { name := "Poolless", symbol := "NOPOOL", mint := "mint" }, pools := [] }

/-- Fresh runtime state as Runtime::new builds it over a default
memory: empty caches, tweet_mode and debug_mode off. -/
def base_state : RuntimeState :=
  { memory := Memory.default, processed_tweets := [], cached_user_id := none,
    last_notification_check := none, last_tweet_time := none,
    recent_phrases := [], max_recent_phrases := 50 }

/-- Fresh runtime state whose loaded memory has tweet_mode on; the user
id is already cached. -/
def mode_on_state : RuntimeState :=
  { base_state with
    memory := { Memory.default with tweet_mode := true },
    cached_user_id := some 7 }

/-- FUD-cycle oracle bundle: one healthy token, fresh drafts, a plain
tweet that succeeds. -/
def fud_base_env : FudEnv :=
  { now := 0, top_tokens := Except.ok [sample_token], token_choice := 0,
    drafts := fun _ => "totally fresh words today", with_image := false, image_ok := false,
    upload_result := Except.error ("unused"), tweet_with_image_result := Except.error ("unused"),
    tweet_result := Except.ok (), user_id_result := Except.ok 7 }

/-- Same bundle with an empty fetched token list. -/
def fud_empty_tokens_env : FudEnv := { fud_base_env with top_tokens := Except.ok [] }

/-- Same bundle fetching only the poolless token. -/
def fud_poolless_env : FudEnv := { fud_base_env with top_tokens := Except.ok [poolless_token] }

/-- Same bundle with a rate-limited plain tweet submission. -/
def fud_rate_limited_env : FudEnv :=
  { fud_base_env with tweet_result := Except.error ("429 Too Many Requests") }

/-- run-cycle oracle bundle: the coin picks the agent post, which
succeeds, and the tweet submission succeeds. -/
def run_base_env : RunEnv :=
  { now := 0, coin_normal_post := true, generated_post := Except.ok ("gm world friends"),
    top_tokens := Except.ok [sample_token], token_choice := 0,
    fud_text := fun t => "FUD about $" ++ t.token.symbol,
    tweet_result := Except.ok 901, agent_prompt := "prompt" }

/-- Same bundle with a rate-limited tweet submission. -/
def run_rate_limited_env : RunEnv :=
  { run_base_env with tweet_result := Except.error ("429 Too Many Requests") }

/-- Five inbound notifications, none of them answered yet. -/
def five_notifications : List Notification :=
  [{ id := 1, text := "thoughts on $AAA" }, { id := 2, text := "thoughts on $BBB" },
   { id := 3, text := "ca?" }, { id := 4, text := "gm" }, { id := 5, text := "wen moon" }]

/-- Notification oracle bundle: the fetch succeeds with the five
notifications, the shuffle is the identity permutation, every reply
generation and submission succeeds. -/
def notif_base_env : NotifEnv :=
  { now := 0, notifications := Except.ok five_notifications,
    shuffle := fun l => l,
    respond := fun n => Except.ok ("reply " ++ toString n.id),
    reply_result := fun _ => Except.ok (),
    user_id_result := Except.ok 7 }

/-! Theorems. -/

lemma hs_insert_nodup {s : List String} (h : s.Nodup) (x : String) : (hs_insert s x).Nodup := by
  unfold hs_insert
  by_cases hx : x ∈ s
  · simp [hx, h]
  · simp [hx, List.nodup_append, h]

lemma foldl_hs_insert_nodup (phs : List String) :
    ∀ {s : List String}, s.Nodup → (phs.foldl hs_insert s).Nodup := by
  induction phs with
  | nil => intro s h; exact h
  | cons p ps ih => intro s h; exact ih (hs_insert_nodup h p)

lemma filter_not_contains_append {t u : List String} (hdisj : List.Disjoint t u) :
    (t ++ u).filter (fun p => !(t.contains p)) = u := by
  rw [List.filter_append]
  have h1 : t.filter (fun p => !(t.contains p)) = [] :=
    List.filter_eq_nil_iff.mpr (by intro a ha; simp [ha])
  have h2 : u.filter (fun p => !(t.contains p)) = u := by
    apply List.filter_eq_self.mpr
    intro a ha
    have hnotin : a ∉ t := fun hm => hdisj hm ha
    simp [hnotin]
  rw [h1, h2]
  rfl

lemma evict_over_capacity_spec {s : List String} (h : s.Nodup) (maxN : Nat) :
    (evict_over_capacity s maxN).Nodup ∧ (evict_over_capacity s maxN).length ≤ maxN := by
  unfold evict_over_capacity
  by_cases hl : s.length > maxN
  · rw [if_pos hl]
    have hdrop :
        s.filter (fun p => !((s.take (s.length - maxN)).contains p))
          = s.drop (s.length - maxN) := by
      have hkey := filter_not_contains_append
        (t := s.take (s.length - maxN)) (u := s.drop (s.length - maxN))
        (List.disjoint_take_drop h (Nat.le_refl _))
      rw [List.take_append_drop] at hkey
      exact hkey
    rw [hdrop]
    refine ⟨List.Nodup.sublist (List.drop_sublist _ _) h, ?_⟩
    simp only [List.length_drop]
    omega
  · rw [if_neg hl]
    exact ⟨h, by omega⟩

lemma tracker_step_invariant {st : TrackerState} (op : TrackerOp)
    (hnd : st.recent_phrases.Nodup)
    (hle : st.recent_phrases.length ≤ st.max_recent_phrases) :
    (tracker_step st op).recent_phrases.Nodup ∧
      (tracker_step st op).recent_phrases.length ≤ (tracker_step st op).max_recent_phrases ∧
      (tracker_step st op).max_recent_phrases = st.max_recent_phrases := by
  cases op with
  | check text =>
    simp only [tracker_step]
    unfold contains_recent_phrase
    by_cases hc : ((phrases3 text).any (fun p => st.recent_phrases.contains p)) = true
    · rw [if_pos hc]
      exact ⟨hnd, hle, rfl⟩
    · rw [if_neg hc]
      have hins := foldl_hs_insert_nodup (phrases3 text) hnd
      have hev := evict_over_capacity_spec hins st.max_recent_phrases
      exact ⟨hev.1, hev.2, rfl⟩
  | post_update text =>
    simp only [tracker_step]
    have hins := foldl_hs_insert_nodup (phrases3 text) hnd
    have hev := evict_over_capacity_spec hins st.max_recent_phrases
    exact ⟨hev.1, hev.2, trivial⟩

lemma tracker_foldl_invariant (ops : List TrackerOp) :
    ∀ st : TrackerState, st.recent_phrases.Nodup →
      st.recent_phrases.length ≤ st.max_recent_phrases →
      ((ops.foldl tracker_step st).recent_phrases.Nodup ∧
        (ops.foldl tracker_step st).recent_phrases.length ≤
          (ops.foldl tracker_step st).max_recent_phrases) ∧
        (ops.foldl tracker_step st).max_recent_phrases = st.max_recent_phrases := by
  induction ops with
  | nil => intro st h1 h2; exact ⟨⟨h1, h2⟩, rfl⟩
  | cons op ops ih =>
    intro st h1 h2
    obtain ⟨s1, s2, s3⟩ := tracker_step_invariant op h1 h2
    obtain ⟨⟨t1, t2⟩, t3⟩ := ih (tracker_step st op) s1 s2
    refine ⟨⟨t1, t2⟩, ?_⟩
    rw [List.foldl_cons, t3, s3]

/-- C7: starting from the empty tracker with capacity 50 built by the
Runtime constructor, the recent-phrase set holds at most 50 members
after any sequence of check_and_record calls and post-cycle updates. -/
theorem recent_phrases_never_exceed_capacity (ops : List TrackerOp) :
    ((ops.foldl tracker_step tracker_init).recent_phrases).length ≤ 50 := by
  obtain ⟨⟨-, h2⟩, h3⟩ := tracker_foldl_invariant ops tracker_init
    (by simp [tracker_init]) (by simp [tracker_init])
  rw [h3] at h2
  simpa [tracker_init] using h2

/-- C2 counterexample: on a tracker remembering the phrase a b c, the
text a b c d is flagged as a repeat (true) and its fresh phrase b c d is
NOT inserted, refuting the claim that insertion is unconditional. -/
theorem check_and_record_not_unconditional :
    (contains_recent_phrase { recent_phrases := ["a b c"], max_recent_phrases := 50 }
        ("a b c d")).1 = true ∧
      ((contains_recent_phrase { recent_phrases := ["a b c"], max_recent_phrases := 50 }
        ("a b c d")).2.recent_phrases.contains ("b c d")) = false :=
  ⟨rfl, rfl⟩

/-- C2 amended: check_and_record inserts the text's phrases only when it
returns false; when some phrase of the text is already present it
returns true and leaves the tracker state completely unchanged. -/
theorem check_and_record_amended (st : TrackerState) (text : String)
    (h : (contains_recent_phrase st text).1 = true) :
    (contains_recent_phrase st text).2 = st := by
  unfold contains_recent_phrase at h ⊢
  by_cases hc : ((phrases3 text).any (fun p => st.recent_phrases.contains p)) = true
  · rw [if_pos hc]
  · rw [if_neg hc] at h
    simp at h

/-- Witness for the amended C2 at a concrete repeat. -/
theorem check_and_record_amended_witness :
    (contains_recent_phrase { recent_phrases := ["a b c"], max_recent_phrases := 50 }
        ("a b c d")).2
      = { recent_phrases := ["a b c"], max_recent_phrases := 50 } :=
  check_and_record_amended _ _ rfl

/-- C9: with the quarter-hour marks, should_run_scheduled_action is true
exactly when the minute is 0, 15, 30 or 45 and the second is 0. -/
theorem scheduled_check_iff (minute second : Nat) :
    should_run_scheduled_action [0, 15, 30, 45] minute second = true ↔
      ((minute = 0 ∨ minute = 15 ∨ minute = 30 ∨ minute = 45) ∧ second = 0) := by
  simp [should_run_scheduled_action]

lemma build_memory_ids (ops : List AddOp) :
    ∀ m : Memory, m.tweets.map Tweet.internal_id = List.range m.next_id →
      (ops.foldl apply_add m).tweets.map Tweet.internal_id
        = List.range (ops.foldl apply_add m).next_id := by
  induction ops with
  | nil => intro m h; exact h
  | cons op ops ih =>
    intro m h
    apply ih
    cases op <;> simp [apply_add, add_to_memory, add_reply_to_memory, h, List.range_succ]

lemma build_next_id (ops : List AddOp) :
    ∀ m : Memory, (ops.foldl apply_add m).next_id = m.next_id + ops.length := by
  induction ops with
  | nil => intro m; simp
  | cons op ops ih =>
    intro m
    rw [List.foldl_cons, ih]
    cases op <;> simp [apply_add, add_to_memory, add_reply_to_memory] <;> omega

lemma foldl_max_range (n : Nat) : List.foldl max 0 (List.range n) = n - 1 := by
  induction n with
  | zero => rfl
  | succ k ih =>
    rw [List.range_succ, List.foldl_append]
    simp [ih]

/-- C6: a memory built by a nonempty sequence of add-to-memory
operations, saved to storage and loaded back, has next_id equal to one
more than the highest internal_id present among its posts. -/
theorem next_id_roundtrip (ops : List AddOp) (h : ops ≠ []) :
    (load_memory (save_memory (build_memory ops))).next_id
      = max_internal_id (load_memory (save_memory (build_memory ops))).tweets + 1 := by
  have hload : load_memory (save_memory (build_memory ops)) = build_memory ops := rfl
  rw [hload]
  have hids : (build_memory ops).tweets.map Tweet.internal_id
      = List.range (build_memory ops).next_id :=
    build_memory_ids ops Memory.default (by simp [Memory.default])
  have hn : (build_memory ops).next_id = ops.length := by
    have hb := build_next_id ops Memory.default
    simpa [Memory.default] using hb
  have hmax : max_internal_id (build_memory ops).tweets
      = List.foldl max 0 ((build_memory ops).tweets.map Tweet.internal_id) :=
    (List.foldl_map Tweet.internal_id max (build_memory ops).tweets 0).symm
  rw [hmax, hids, foldl_max_range, hn]
  have hpos : 0 < ops.length := List.length_pos.mpr h
  omega

/-- Witness for C6 on a one-element operation sequence. -/
theorem next_id_roundtrip_witness :
    (load_memory (save_memory (build_memory [AddOp.original ("gm") ("p") none 0]))).next_id
      = max_internal_id
          (load_memory (save_memory (build_memory [AddOp.original ("gm") ("p") none 0]))).tweets
        + 1 :=
  next_id_roundtrip [AddOp.original ("gm") ("p") none 0] (List.cons_ne_nil _ _)

/-- C1: the code violates the claim: a post cycle invoked with a
successfully fetched token list of length 0 panics inside the random
draw gen_range over the empty range 0..0, before the graceful if-let
fallthrough can run, instead of logging the empty set and returning Ok. -/
theorem fud_cycle_empty_tokens_panics :
    (generate_and_post_fud base_state fud_empty_tokens_env).1
      = RunResult.panicked ("cannot sample empty range") := rfl

/-- C10: format_token_summary unwraps pools.first, so any token whose
pools vector is empty makes it panic, and a post cycle that draws such a
token aborts by panic rather than by a caught, logged error. -/
theorem empty_pools_token_panics (token : TokenResponse) (st : RuntimeState) (env : FudEnv)
    (hpools : token.pools = [])
    (hallow : should_allow_tweet st.last_tweet_time env.now = true)
    (htok : env.top_tokens = Except.ok [token]) :
    format_token_summary token = none ∧
      (generate_and_post_fud st env).1
        = RunResult.panicked ("called Option unwrap on a None value") := by
  have hfmt : format_token_summary token = none := by
    unfold format_token_summary
    rw [hpools]
  refine ⟨hfmt, ?_⟩
  simp only [generate_and_post_fud, hallow, htok]
  simp [hfmt, Nat.mod_one]

/-- Witness for C10 at the concrete poolless token. -/
theorem empty_pools_token_panics_witness :
    format_token_summary poolless_token = none ∧
      (generate_and_post_fud base_state fud_poolless_env).1
        = RunResult.panicked ("called Option unwrap on a None value") :=
  empty_pools_token_panics poolless_token base_state fud_poolless_env rfl rfl rfl

lemma fud_attempt_loop_spec (recent : List String) (drafts : Nat → String) :
    ∀ fuel attempts,
      (fud_attempt_loop recent drafts fuel attempts).2 ≤ max attempts 3 ∧
        (fud_attempt_loop recent drafts fuel attempts).1
          = drafts (fud_attempt_loop recent drafts fuel attempts).2 := by
  intro fuel
  induction fuel with
  | zero => intro attempts; exact ⟨Nat.le_max_left _ _, rfl⟩
  | succ k ih =>
    intro attempts
    unfold fud_attempt_loop
    split
    · exact ⟨Nat.le_max_left _ _, rfl⟩
    · next h =>
      obtain ⟨h1, h2⟩ := ih (attempts + 1)
      refine ⟨le_trans h1 ?_, h2⟩
      simp only [Bool.or_eq_true, decide_eq_true_eq, not_or] at h
      have hlt : attempts < 3 := Nat.lt_of_not_le h.2
      have hmax : max (attempts + 1) 3 = 3 := Nat.max_eq_right (by omega)
      rw [hmax]
      exact Nat.le_max_right _ _

/-- C8: in the post cycle, the regeneration protocol regenerates at most
3 times (the attempts counter at acceptance never exceeds 3), the draft
of the final attempt is always accepted, and a cycle that reaches the
retry loop returns Ok: repetition never produces an error. -/
theorem fud_regeneration_bounded (st : RuntimeState) (env : FudEnv)
    (tokens : List TokenResponse)
    (htok : env.top_tokens = Except.ok tokens)
    (hne : tokens ≠ [])
    (hpools : ∀ t ∈ tokens, t.pools ≠ [])
    (huid : (ensure_user_id st env.user_id_result).isOk = true) :
    ((fud_attempt_loop st.recent_phrases env.drafts 4 0).2 ≤ 3 ∧
      (fud_attempt_loop st.recent_phrases env.drafts 4 0).1
        = env.drafts (fud_attempt_loop st.recent_phrases env.drafts 4 0).2) ∧
      (generate_and_post_fud st env).1 = RunResult.ok := by
  obtain ⟨hb, ha⟩ := fud_attempt_loop_spec st.recent_phrases env.drafts 4 0
  refine ⟨⟨by simpa using hb, ha⟩, ?_⟩
  unfold generate_and_post_fud
  split
  · rfl
  · split
    · next e heq => rw [htok] at heq; cases heq
    · next toks heq =>
      rw [htok] at heq
      cases heq
      split
      · next hzero => exact absurd (List.length_eq_zero.mp hzero) hne
      · split
        · rfl
        · next t hget =>
          split
          · next hfmt =>
            exfalso
            have htmem : t ∈ tokens := List.get?_mem hget
            have hnp := hpools t htmem
            unfold format_token_summary at hfmt
            cases hp : t.pools with
            | nil => exact hnp hp
            | cons p ps => rw [hp] at hfmt; cases hfmt
          · split
            · split
              · next e he => rw [he] at huid; cases huid
              · rfl
            · rfl

/-- Witness for C8 at the concrete healthy environment. -/
theorem fud_regeneration_bounded_witness :
    ((fud_attempt_loop base_state.recent_phrases fud_base_env.drafts 4 0).2 ≤ 3 ∧
      (fud_attempt_loop base_state.recent_phrases fud_base_env.drafts 4 0).1
        = fud_base_env.drafts (fud_attempt_loop base_state.recent_phrases fud_base_env.drafts 4 0).2) ∧
      (generate_and_post_fud base_state fud_base_env).1 = RunResult.ok :=
  fud_regeneration_bounded base_state fud_base_env [sample_token] rfl
    (List.cons_ne_nil _ _) (by decide) rfl

/-- C5 counterexample: with tweet_mode on and the plain submission
failing with a message containing the rate-limit indicator 429, the FUD
post cycle returns Ok and leaves last_tweet_time unset, but sleeps 0
seconds instead of the claimed fixed 15-minute cooldown. -/
theorem rate_limit_no_sleep_in_fud_cycle :
    contains_429 ("429 Too Many Requests") = true ∧
      (generate_and_post_fud mode_on_state fud_rate_limited_env).1 = RunResult.ok ∧
      (generate_and_post_fud mode_on_state fud_rate_limited_env).2.2.sleep_secs = 0 ∧
      (generate_and_post_fud mode_on_state fud_rate_limited_env).2.1.last_tweet_time = none :=
  ⟨rfl, rfl, rfl, rfl⟩

/-- C5 amended: when the external submission fails with a rate-limit
indicator, the simple post cycle (run) sleeps the fixed 900-second
cooldown, returns Ok, and leaves last_tweet_time unchanged; the FUD post
cycle only logs the failure: it also returns Ok with last_tweet_time
unchanged, but sleeps 0 seconds instead of the cooldown. -/
theorem rate_limit_behaviour
    (st1 : RuntimeState) (env1 : RunEnv) (n1 : Nat) (content e1 : String)
    (st2 : RuntimeState) (env2 : FudEnv) (tokens : List TokenResponse) (e2 : String)
    (hn1 : n1 ≠ 0)
    (hallow1 : should_allow_tweet st1.last_tweet_time env1.now = true)
    (hmode1 : st1.memory.tweet_mode = true)
    (hcontent : run_content env1 = Sum.inr content)
    (htw1 : env1.tweet_result = Except.error e1)
    (h429 : contains_429 e1 = true)
    (hmode2 : st2.memory.tweet_mode = true)
    (himg : env2.with_image = false)
    (htok : env2.top_tokens = Except.ok tokens)
    (hne : tokens ≠ [])
    (hpools : ∀ t ∈ tokens, t.pools ≠ [])
    (huid : st2.cached_user_id = some 7)
    (htw2 : env2.tweet_result = Except.error e2) :
    ((run_cycle st1 env1 n1).1 = RunResult.ok ∧
      (run_cycle st1 env1 n1).2.2.sleep_secs = 15 * 60 ∧
      (run_cycle st1 env1 n1).2.1.last_tweet_time = st1.last_tweet_time) ∧
    ((generate_and_post_fud st2 env2).1 = RunResult.ok ∧
      (generate_and_post_fud st2 env2).2.2.sleep_secs = 0 ∧
      (generate_and_post_fud st2 env2).2.1.last_tweet_time = st2.last_tweet_time) := by
  constructor
  · unfold run_cycle
    rw [if_neg hn1, hallow1]
    simp only [Bool.true_eq_false, if_false, hcontent, hmode1, if_true, htw1, h429]
    refine ⟨?_, ?_, ?_⟩ <;> trivial
  · unfold generate_and_post_fud
    split
    · exact ⟨rfl, rfl, rfl⟩
    · split
      · next e heq => rw [htok] at heq; cases heq
      · next toks heq =>
        rw [htok] at heq
        cases heq
        split
        · next hzero => exact absurd (List.length_eq_zero.mp hzero) hne
        · split
          · exact ⟨rfl, rfl, rfl⟩
          · next t hget =>
            split
            · next hfmt =>
              exfalso
              have htmem : t ∈ tokens := List.get?_mem hget
              have hnp := hpools t htmem
              unfold format_token_summary at hfmt
              cases hp : t.pools with
              | nil => exact hnp hp
              | cons p ps => rw [hp] at hfmt; cases hfmt
            · have hens : ensure_user_id st2 env2.user_id_result = Except.ok (7, st2) := by
                unfold ensure_user_id
                rw [huid]
              have hpost : fud_post_step st2 env2
                  (fud_attempt_loop st2.recent_phrases env2.drafts 4 0).1
                  = (st2, ⟨[(fud_attempt_loop st2.recent_phrases env2.drafts 4 0).1], 0⟩) := by
                unfold fud_post_step
                rw [himg]
                simp [htw2]
              simp [hmode2, hens, hpost]

/-- Witness for the amended C5 at the concrete rate-limited bundles. -/
theorem rate_limit_behaviour_witness :
    ((run_cycle mode_on_state run_rate_limited_env 1).1 = RunResult.ok ∧
      (run_cycle mode_on_state run_rate_limited_env 1).2.2.sleep_secs = 15 * 60 ∧
      (run_cycle mode_on_state run_rate_limited_env 1).2.1.last_tweet_time
        = mode_on_state.last_tweet_time) ∧
    ((generate_and_post_fud mode_on_state fud_rate_limited_env).1 = RunResult.ok ∧
      (generate_and_post_fud mode_on_state fud_rate_limited_env).2.2.sleep_secs = 0 ∧
      (generate_and_post_fud mode_on_state fud_rate_limited_env).2.1.last_tweet_time
        = mode_on_state.last_tweet_time) :=
  rate_limit_behaviour mode_on_state run_rate_limited_env 1 ("gm world friends")
    ("429 Too Many Requests") mode_on_state fud_rate_limited_env [sample_token]
    ("429 Too Many Requests") (by decide) rfl rfl rfl rfl rfl rfl rfl rfl
    (List.cons_ne_nil _ _) (by decide) rfl rfl

lemma record_reply_tweet_mode (st : RuntimeState) (r p : String) (i now : Nat) :
    (record_reply st r p i now).memory.tweet_mode = st.memory.tweet_mode := rfl

lemma record_reply_tweets (st : RuntimeState) (r p : String) (i now : Nat) :
    (record_reply st r p i now).memory.tweets
      = st.memory.tweets ++
          [{ internal_id := st.memory.next_id, twitter_id := some (toString i), text := r,
             prompt := p, timestamp := now, tweet_type := TweetType.Reply,
             reply_to := some (toString i) }] := rfl

lemma notif_loop_mode_off (env : NotifEnv) (prompt : String) :
    ∀ (sel : List Notification) (st : RuntimeState) (eff : Effects),
      st.memory.tweet_mode = false →
      (∀ n ∈ sel, (env.respond n).isOk = true) →
      (notif_loop env prompt sel st eff).1 = RunResult.ok ∧
        (notif_loop env prompt sel st eff).2.2 = eff ∧
        (notif_loop env prompt sel st eff).2.1.memory.tweets.length
          = st.memory.tweets.length + sel.length ∧
        (∀ t ∈ (notif_loop env prompt sel st eff).2.1.memory.tweets,
          t ∈ st.memory.tweets ∨ t.tweet_type = TweetType.Reply) := by
  intro sel
  induction sel with
  | nil => intro st eff hmode hresp; exact ⟨rfl, rfl, rfl, fun t ht => Or.inl ht⟩
  | cons tweet rest ih =>
    intro st eff hmode hresp
    have hr : (env.respond tweet).isOk = true := hresp tweet (by simp)
    cases hre : env.respond tweet with
    | error e => rw [hre] at hr; cases hr
    | ok fud_response =>
      have hmode1 : (record_reply st fud_response prompt tweet.id env.now).memory.tweet_mode
          = false := by rw [record_reply_tweet_mode]; exact hmode
      obtain ⟨i1, i2, i3, i4⟩ := ih (record_reply st fud_response prompt tweet.id env.now) eff
        hmode1 (fun n hn => hresp n (by simp [hn]))
      simp only [notif_loop, hre, hmode1, Bool.false_eq_true, if_false]
      refine ⟨i1, i2, ?_, ?_⟩
      · rw [i3, record_reply_tweets]
        simp [Nat.add_assoc, Nat.add_comm 1 rest.length]
      · intro t ht
        rcases i4 t ht with hin | hrep
        · rw [record_reply_tweets] at hin
          rcases List.mem_append.mp hin with h | h
          · exact Or.inl h
          · right
            rw [List.mem_singleton.mp h]
        · exact Or.inr hrep

lemma notif_loop_mode_on_all_ok (env : NotifEnv) (prompt : String) :
    ∀ (sel : List Notification) (st : RuntimeState) (eff : Effects),
      st.memory.tweet_mode = true →
      (∀ n ∈ sel, (env.respond n).isOk = true) →
      (∀ n ∈ sel, (env.reply_result n).isOk = true) →
      (notif_loop env prompt sel st eff).1 = RunResult.ok ∧
        (notif_loop env prompt sel st eff).2.2.submissions.length
          = eff.submissions.length + sel.length ∧
        (notif_loop env prompt sel st eff).2.1.memory.tweets.length
          = st.memory.tweets.length + sel.length := by
  intro sel
  induction sel with
  | nil => intro st eff hmode hresp hreply; exact ⟨rfl, rfl, rfl⟩
  | cons tweet rest ih =>
    intro st eff hmode hresp hreply
    have hr : (env.respond tweet).isOk = true := hresp tweet (by simp)
    cases hre : env.respond tweet with
    | error e => rw [hre] at hr; cases hr
    | ok fud_response =>
      have hrr : (env.reply_result tweet).isOk = true := hreply tweet (by simp)
      cases hrre : env.reply_result tweet with
      | error e => rw [hrre] at hrr; cases hrr
      | ok u =>
        have hmode1 : (record_reply st fud_response prompt tweet.id env.now).memory.tweet_mode
            = true := by rw [record_reply_tweet_mode]; exact hmode
        obtain ⟨i1, i2, i3⟩ := ih (record_reply st fud_response prompt tweet.id env.now)
          ⟨eff.submissions ++ [fud_response], eff.sleep_secs + 30⟩
          hmode1 (fun n hn => hresp n (by simp [hn])) (fun n hn => hreply n (by simp [hn]))
        simp only [notif_loop, hre, hmode1, if_true, hrre]
        refine ⟨i1, ?_, ?_⟩
        · rw [i2]
          simp [Nat.add_assoc, Nat.add_comm 1 rest.length]
        · rw [i3, record_reply_tweets]
          simp [Nat.add_assoc, Nat.add_comm 1 rest.length]

/-- C3 counterexample: a FUD post cycle that runs to completion with
tweet_mode off submits nothing, returns Ok, and appends NO record to the
bot memory, refuting the claim that a Post record is still appended. -/
theorem fud_cycle_mode_off_appends_nothing :
    (generate_and_post_fud base_state fud_base_env).1 = RunResult.ok ∧
      (generate_and_post_fud base_state fud_base_env).2.2.submissions = [] ∧
      base_state.memory.tweet_mode = false ∧
      (generate_and_post_fud base_state fud_base_env).2.1.memory.tweets = [] :=
  ⟨rfl, rfl, rfl, rfl⟩

/-- C3 amended: with tweet_mode off, no cycle invokes an external
submission; the simple post cycle (run) and the reply loop still append
their Original and Reply records to the bot memory, but the FUD post
cycle appends nothing: its memory is left entirely unchanged (it never
writes to the bot memory in either mode). -/
theorem tweet_mode_off_behaviour
    (st1 : RuntimeState) (env1 : RunEnv) (n1 : Nat) (content : String)
    (st2 : RuntimeState) (env2 : FudEnv)
    (env3 : NotifEnv) (prompt : String) (sel : List Notification)
    (st3 : RuntimeState) (eff3 : Effects)
    (hn1 : n1 ≠ 0)
    (hallow1 : should_allow_tweet st1.last_tweet_time env1.now = true)
    (hmode1 : st1.memory.tweet_mode = false)
    (hcontent : run_content env1 = Sum.inr content)
    (hmode2 : st2.memory.tweet_mode = false)
    (hmode3 : st3.memory.tweet_mode = false)
    (hresp : ∀ n ∈ sel, (env3.respond n).isOk = true) :
    ((run_cycle st1 env1 n1).2.2.submissions = [] ∧
      (run_cycle st1 env1 n1).2.1.memory.tweets
        = st1.memory.tweets ++
            [{ internal_id := st1.memory.next_id, twitter_id := none, text := content,
               prompt := env1.agent_prompt, timestamp := env1.now,
               tweet_type := TweetType.Original, reply_to := none }]) ∧
    ((generate_and_post_fud st2 env2).2.2.submissions = [] ∧
      (generate_and_post_fud st2 env2).2.1.memory = st2.memory) ∧
    ((notif_loop env3 prompt sel st3 eff3).2.2.submissions = eff3.submissions ∧
      (notif_loop env3 prompt sel st3 eff3).2.1.memory.tweets.length
        = st3.memory.tweets.length + sel.length ∧
      (∀ t ∈ (notif_loop env3 prompt sel st3 eff3).2.1.memory.tweets,
        t ∈ st3.memory.tweets ∨ t.tweet_type = TweetType.Reply)) := by
  refine ⟨?_, ?_, ?_⟩
  · unfold run_cycle
    rw [if_neg hn1, hallow1]
    simp only [Bool.true_eq_false, if_false, hcontent, hmode1]
    exact ⟨rfl, rfl⟩
  · unfold generate_and_post_fud
    split
    · exact ⟨rfl, rfl⟩
    · split
      · exact ⟨rfl, rfl⟩
      · split
        · exact ⟨rfl, rfl⟩
        · split
          · exact ⟨rfl, rfl⟩
          · split
            · exact ⟨rfl, rfl⟩
            · simp [hmode2, no_effects]
  · obtain ⟨-, h2, h3, h4⟩ := notif_loop_mode_off env3 prompt sel st3 eff3 hmode3 hresp
    exact ⟨by rw [h2], h3, h4⟩

/-- Witness for the amended C3 at the concrete mode-off bundles. -/
theorem tweet_mode_off_behaviour_witness :
    ((run_cycle base_state run_base_env 1).2.2.submissions = [] ∧
      (run_cycle base_state run_base_env 1).2.1.memory.tweets
        = base_state.memory.tweets ++
            [{ internal_id := base_state.memory.next_id, twitter_id := none,
               text := "gm world friends", prompt := run_base_env.agent_prompt,
               timestamp := run_base_env.now,
               tweet_type := TweetType.Original, reply_to := none }]) ∧
    ((generate_and_post_fud base_state fud_base_env).2.2.submissions = [] ∧
      (generate_and_post_fud base_state fud_base_env).2.1.memory = base_state.memory) ∧
    ((notif_loop notif_base_env ("p") five_notifications base_state no_effects).2.2.submissions
        = no_effects.submissions ∧
      (notif_loop notif_base_env ("p") five_notifications base_state no_effects).2.1.memory.tweets.length
        = base_state.memory.tweets.length + five_notifications.length ∧
      (∀ t ∈ (notif_loop notif_base_env ("p") five_notifications base_state
          no_effects).2.1.memory.tweets,
        t ∈ base_state.memory.tweets ∨ t.tweet_type = TweetType.Reply)) :=
  tweet_mode_off_behaviour base_state run_base_env 1 ("gm world friends")
    base_state fud_base_env notif_base_env ("p") five_notifications base_state no_effects
    (by decide) rfl rfl rfl rfl rfl (by intro n hn; exact rfl)

/-- C4 counterexample: a pass of handle_notifications_fud over a batch
of 5 unprocessed notifications (tweet_mode on, all generations and
submissions succeeding) attempts exactly 3 external replies, not 2, and
exactly 3 of the 5 notifications end up marked as answered in the bot
memory, not all 5. -/
theorem notification_cap_counterexample :
    five_notifications.length = 5 ∧
      (handle_notifications_fud mode_on_state notif_base_env 1 ("p")).2.2.submissions.length
        = 3 ∧
      (five_notifications.filter (fun nt =>
          answered_in_memory
            (handle_notifications_fud mode_on_state notif_base_env 1 ("p")).2.1.memory
            nt.id)).length = 3 :=
  ⟨rfl, rfl, rfl⟩

/-- C4 amended: over a batch with 5 unprocessed (unanswered) inbound
messages, the cap used by the code selects 3 of them (shuffle, truncate
to 3): exactly 3 replies are attempted and exactly those 3 selected
messages are marked answered by their Reply records; the 2 unselected
ones stay unmarked. -/
theorem notification_cap_behaviour (st : RuntimeState) (env : NotifEnv) (n : Nat)
    (prompt : String) (notifications : List Notification)
    (hn : n ≠ 0)
    (hgate : should_check_notifications st.last_notification_check env.now = true)
    (huid : st.cached_user_id = some 7)
    (hnotif : env.notifications = Except.ok notifications)
    (hshuffle : ∀ l, (env.shuffle l).length = l.length)
    (hunresp : (notifications.filter
        (fun tweet => !(answered_in_memory st.memory tweet.id))).length = 5)
    (hmode : st.memory.tweet_mode = true)
    (hresp : ∀ nt, (env.respond nt).isOk = true)
    (hreply : ∀ nt, (env.reply_result nt).isOk = true) :
    (handle_notifications_fud st env n prompt).1 = RunResult.ok ∧
      (handle_notifications_fud st env n prompt).2.2.submissions.length = 3 ∧
      (handle_notifications_fud st env n prompt).2.1.memory.tweets.length
        = st.memory.tweets.length + 3 := by
  have hsel : (select_to_process env st.memory notifications).length = 3 := by
    unfold select_to_process
    rw [hunresp, if_pos (by omega : (5 : Nat) > 2), List.length_take, hshuffle, hunresp]
    decide
  unfold handle_notifications_fud
  rw [if_neg hn, hgate]
  have hens : ensure_user_id st env.user_id_result = Except.ok (7, st) := by
    unfold ensure_user_id
    rw [huid]
  simp only [Bool.true_eq_false, if_false, hens, hnotif]
  obtain ⟨l1, l2, l3⟩ := notif_loop_mode_on_all_ok env prompt
    (select_to_process env st.memory notifications)
    ({ st with last_notification_check := some env.now }) no_effects
    hmode (fun nt _ => hresp nt) (fun nt _ => hreply nt)
  rw [hsel] at l2 l3
  exact ⟨l1, by rw [l2]; rfl, by rw [l3]⟩

/-- Witness for the amended C4 at the concrete five-notification batch. -/
theorem notification_cap_behaviour_witness :
    (handle_notifications_fud mode_on_state notif_base_env 1 ("p")).1 = RunResult.ok ∧
      (handle_notifications_fud mode_on_state notif_base_env 1 ("p")).2.2.submissions.length
        = 3 ∧
      (handle_notifications_fud mode_on_state notif_base_env 1 ("p")).2.1.memory.tweets.length
        = mode_on_state.memory.tweets.length + 3 :=
  notification_cap_behaviour mode_on_state notif_base_env 1 ("p") five_notifications
    (by decide) rfl rfl rfl (fun l => rfl) rfl rfl (fun nt => rfl) (fun nt => rfl)

end ChainFud
